import Mathlib

/-!
Verification of the token refresh / authenticated-request retry pipeline of
the Legenddary eBook platform frontend.

The definitions below are a shallow embedding of the `AuthProvider` React
context (src/memory/PRD.md, lines 218-376): the session store
(`applyAuthData`, `logout`), the refresh coordinator (`refreshTokens` with
its `refreshPromiseRef` de-duplication slot), the axios request and
response interceptors, the `login` operation and the `fetchUser` error
fallback.

Modelling conventions:
  * JavaScript string-or-null values become `Option String`; JS truthiness
    (`null` and `""` are falsy) is `jsTruthy`, and the JS `||` operator on
    such values is `jsOr`.
  * The single-threaded event loop is modelled by explicit state passing:
    `CoordState` carries the session, the `refreshPromiseRef` slot
    (`refreshPromise`), and an instrumentation counter
    `backendRefreshCalls` counting issued `POST /auth/refresh` calls.
    A call to the refresh coordinator runs without interleaving up to the
    point where it awaits the shared promise (the source has no `await`
    between the null-check of `refreshPromiseRef.current` and its
    assignment), so each call is one atomic step `refreshTokens`;
    settlement of the shared promise is a separate step `settleRefresh`.
  * Promises are identified by a fresh `Nat`; every caller that awaits the
    same promise id observes the single outcome produced when that promise
    settles.
  * Fallible operations take the backend's answer as an explicit
    `Except AxiosError AuthData` argument and return the propagated value.
-/

/-- UserProfile as in the spec data model: id, name, email. -/
structure UserProfile where
  id : String
  name : String
  email : String
deriving DecidableEq, Repr

/-- Payload of a successful login/register/refresh response:
`{ access_token, refresh_token, user }`. -/
structure AuthData where
  access_token : String
  refresh_token : String
  user : UserProfile
deriving DecidableEq, Repr

/-- JS truthiness of a string-or-null value: null and "" are falsy. -/
def jsTruthy : Option String → Bool
  | none => false
  | some s => s != ""

/-- JS `a || b` on string-or-null values. -/
def jsOr (a b : Option String) : Option String :=
  if jsTruthy a then a else b

/-- Request headers as a JS object restricted to string values. -/
abbrev Headers := List (String × String)

/-- JS object-spread update `\x7b ...hs, k: v \x7d`: the key k now maps to v. -/
def setHeader (hs : Headers) (k v : String) : Headers :=
  (k, v) :: hs.filter (fun p => p.1 ≠ k)

/-- Header lookup. -/
def getHeader (hs : Headers) (k : String) : Option String :=
  (hs.find? (fun p => p.1 == k)).map (fun p => p.2)

/-- The mutable client-side session: localStorage tokens, the axios default
Authorization header, and the three React state variables. -/
structure AuthState where
  lsAccess : Option String
  lsRefresh : Option String
  defaultAuthHeader : Option String
  token : Option String
  refreshTokenSt : Option String
  user : Option UserProfile
deriving DecidableEq, Repr

/-- applyAuthData (PRD.md lines 231-238): store both tokens in localStorage,
set the default Authorization header, and set the three state variables. -/
def applyAuthData (authData : AuthData) (_s : AuthState) : AuthState :=
  { lsAccess := some authData.access_token
    lsRefresh := some authData.refresh_token
    defaultAuthHeader := some ("Bearer " ++ authData.access_token)
    token := some authData.access_token
    refreshTokenSt := some authData.refresh_token
    user := some authData.user }

/-- logout (PRD.md lines 240-247): remove both tokens from localStorage,
delete the default Authorization header, null out the state variables. -/
def logout (_s : AuthState) : AuthState :=
  { lsAccess := none
    lsRefresh := none
    defaultAuthHeader := none
    token := none
    refreshTokenSt := none
    user := none }

/-- An axios request config. `retryFlag` models the ad-hoc `_retry` marker
and `skipAuthRefresh` the custom flag set on the refresh call itself. -/
structure Request where
  url : String
  retryFlag : Bool
  skipAuthRefresh : Bool
  headers : Headers
deriving DecidableEq, Repr

/-- The empty JS object substituted by `error.config || \x7b\x7d`:
every property reads as undefined (falsy / empty string). -/
def emptyRequest : Request :=
  { url := "", retryFlag := false, skipAuthRefresh := false, headers := [] }

/-- An axios error: the request config it belongs to (absent for some
transport errors), `error.response?.status` (none when there is no HTTP
response at all), and the backend-provided message. -/
structure AxiosError where
  config : Option Request
  status : Option Nat
  message : String
deriving DecidableEq, Repr

/-- Substring test, as JS `String.prototype.includes`: does the second list
occur contiguously in the first? -/
def charsStartWith : List Char → List Char → Bool
  | _, [] => true
  | [], _ :: _ => false
  | c :: cs, p :: ps => c == p && charsStartWith cs ps

def charsContain : List Char → List Char → Bool
  | [], pat => pat.isEmpty
  | c :: cs, pat => charsStartWith (c :: cs) pat || charsContain cs pat

/-- JS `s.includes(pat)`. -/
def includes (s pat : String) : Bool :=
  charsContain s.toList pat.toList

/-- The `isAuthRoute` test of the response interceptor (PRD.md line 298):
the URL contains one of the three auth route fragments. -/
def isAuthRoute (url : String) : Bool :=
  includes url "/auth/login" || includes url "/auth/register" ||
    includes url "/auth/refresh"

/-- The axios request interceptor (PRD.md lines 281-290): if an access token
is stored in localStorage, set the Authorization header to its bearer form;
otherwise pass the config through unchanged. -/
def requestInterceptor (lsAccess : Option String) (config : Request) : Request :=
  if jsTruthy lsAccess then
    { config with
        headers := setHeader config.headers "Authorization"
          ("Bearer " ++ lsAccess.getD "") }
  else config

/-- What the response interceptor's error branch decides to do with an
error (PRD.md lines 292-321) before any refresh result is known. -/
inductive RefreshDecision
  | passthrough
  | attemptRefresh (marked : Request)
deriving DecidableEq, Repr

/-- The response interceptor's error handler (PRD.md lines 294-320): only a
401 on a non-auth-route, non-`skipAuthRefresh` request that has not been
retried yet leads to a refresh attempt, with the request marked `_retry`;
every other error is rejected as-is. -/
def responseInterceptorOnError (error : AxiosError) : RefreshDecision :=
  let originalRequest := error.config.getD emptyRequest
  let statusCode := error.status
  let requestUrl := originalRequest.url
  let isAuth := isAuthRoute requestUrl
  if statusCode == some 401 && !originalRequest.retryFlag && !isAuth &&
      !originalRequest.skipAuthRefresh then
    RefreshDecision.attemptRefresh { originalRequest with retryFlag := true }
  else
    RefreshDecision.passthrough

/-- Outcome of the response interceptor as observed by the caller of the
original request. -/
inductive InterceptResult
  | rejectedOriginal (e : AxiosError)
  | rejectedRefreshError (e : AxiosError)
  | replayed (req : Request)
deriving DecidableEq, Repr

/-- Full error path of the response interceptor: on a refresh attempt, a
successful refresh replays the original request once with the fresh bearer
token (PRD.md lines 308-313); a failed refresh rejects with the refresh
error (line 315); otherwise the original error is rejected (line 319). -/
def handleResponseError (error : AxiosError)
    (refreshResult : Except AxiosError AuthData) : InterceptResult :=
  match responseInterceptorOnError error with
  | RefreshDecision.passthrough => InterceptResult.rejectedOriginal error
  | RefreshDecision.attemptRefresh marked =>
    match refreshResult with
    | Except.ok refreshedData =>
        InterceptResult.replayed
          { marked with
              headers := setHeader marked.headers "Authorization"
                ("Bearer " ++ refreshedData.access_token) }
    | Except.error refreshErr => InterceptResult.rejectedRefreshError refreshErr

/-- Event-loop state of the refresh coordinator: the session, the
`refreshPromiseRef` single slot, a counter of issued backend refresh calls,
and a supply of fresh promise ids. -/
structure CoordState where
  auth : AuthState
  refreshPromise : Option Nat
  backendRefreshCalls : Nat
  nextPromiseId : Nat
deriving DecidableEq, Repr

/-- What a call to the refresh coordinator returns to its caller. -/
inductive RefreshCall
  | noRefreshToken
  | awaiting (promiseId : Nat)
deriving DecidableEq, Repr

/-- refreshTokens (PRD.md lines 249-278) up to the await point. The active
token is `explicitRefreshToken || refreshToken || localStorage refresh`;
without one the call throws `No refresh token available` immediately
(lines 251-253, with no state change and no backend call). If a refresh
promise is already in flight it is returned to the caller (lines 255-257);
otherwise a single backend call is started and its promise stored in the
slot (lines 259-277). -/
def refreshTokens (explicitRefreshToken : Option String) (s : CoordState) :
    CoordState × RefreshCall :=
  let activeRefreshToken :=
    jsOr explicitRefreshToken (jsOr s.auth.refreshTokenSt s.auth.lsRefresh)
  if !jsTruthy activeRefreshToken then
    (s, RefreshCall.noRefreshToken)
  else
    match s.refreshPromise with
    | some promiseId => (s, RefreshCall.awaiting promiseId)
    | none =>
        ({ s with
            refreshPromise := some s.nextPromiseId
            backendRefreshCalls := s.backendRefreshCalls + 1
            nextPromiseId := s.nextPromiseId + 1 },
          RefreshCall.awaiting s.nextPromiseId)

/-- The single outcome a settled refresh promise delivers to all of its
waiters. -/
inductive RefreshOutcome
  | success (authData : AuthData)
  | failure (e : AxiosError)
deriving DecidableEq, Repr

/-- Settlement of the in-flight refresh promise (PRD.md lines 265-275): on
backend success `applyAuthData` runs and the data is returned; on backend
failure `logout()` runs and the error is rethrown; either way the finally
clause resets `refreshPromiseRef.current` to null. -/
def settleRefresh (result : Except AxiosError AuthData) (s : CoordState) :
    CoordState × RefreshOutcome :=
  match result with
  | Except.ok authData =>
      ({ s with auth := applyAuthData authData s.auth, refreshPromise := none },
        RefreshOutcome.success authData)
  | Except.error e =>
      ({ s with auth := logout s.auth, refreshPromise := none },
        RefreshOutcome.failure e)

/-- A burst of concurrent callers of the refresh coordinator: each runs its
atomic pre-await step in turn, with no settlement in between (all within
one in-flight window of the shared promise). -/
def refreshCalls (args : List (Option String)) (s : CoordState) :
    CoordState × List RefreshCall :=
  match args with
  | [] => (s, [])
  | e :: rest =>
      let p := refreshTokens e s
      let q := refreshCalls rest p.1
      (q.1, p.2 :: q.2)

/-- login (PRD.md lines 353-357): post credentials; on success apply the
auth data and return it, on failure the awaited rejection propagates to the
caller with no other effect. -/
def login (backendResult : Except AxiosError AuthData) (s : AuthState) :
    Except AxiosError AuthData × AuthState :=
  match backendResult with
  | Except.ok d => (Except.ok d, applyAuthData d s)
  | Except.error e => (Except.error e, s)

/-- The fallback fetchUser takes on its error branch. -/
inductive FetchUserFallback
  | refresh
  | doLogout
deriving DecidableEq, Repr

/-- The catch branch of fetchUser (PRD.md lines 342-347): a 401 with a
truthy `refreshToken` state variable awaits `refreshTokens()`; anything
else calls `logout()`. -/
def fetchUserOnError (errStatus : Option Nat) (refreshTokenState : Option String) :
    FetchUserFallback :=
  if errStatus == some 401 && jsTruthy refreshTokenState then
    FetchUserFallback.refresh
  else
    FetchUserFallback.doLogout

/-- The config of the refresh POST issued by refreshTokens (PRD.md lines
259-264): url `API ++ /auth/refresh`, flagged `skipAuthRefresh`. -/
def refreshRequestConfig (api : String) : Request :=
  { url := api ++ "/auth/refresh", retryFlag := false,
    skipAuthRefresh := true, headers := [] }

/-- The config of the login POST issued by login (PRD.md line 354). -/
def loginRequestConfig (api : String) : Request :=
  { url := api ++ "/auth/login", retryFlag := false,
    skipAuthRefresh := false, headers := [] }

/-! ### Helper lemmas -/

theorem charsStartWith_append (ps rest : List Char) :
    charsStartWith (ps ++ rest) ps = true := by
  induction ps with
  | nil => simp [charsStartWith]
  | cons p ps ih => simp [charsStartWith, ih]

theorem charsContain_append_self (xs ps : List Char) :
    charsContain (xs ++ ps) ps = true := by
  induction xs with
  | nil =>
    cases ps with
    | nil => rfl
    | cons p ps =>
      have h := charsStartWith_append (p :: ps) []
      simp only [List.append_nil] at h
      simp [charsContain, h]
  | cons x xs ih => simp [charsContain, ih]

theorem includes_append_self (a b : String) : includes (a ++ b) b = true := by
  unfold includes
  show charsContain (a ++ b).data b.data = true
  rw [String.data_append]
  exact charsContain_append_self a.data b.data

theorem isAuthRoute_login (api : String) :
    isAuthRoute (api ++ "/auth/login") = true := by
  unfold isAuthRoute
  simp [includes_append_self]

theorem isAuthRoute_refresh (api : String) :
    isAuthRoute (api ++ "/auth/refresh") = true := by
  unfold isAuthRoute
  simp [includes_append_self]

theorem getHeader_setHeader (hs : Headers) (k v : String) :
    getHeader (setHeader hs k v) k = some v := by
  simp [getHeader, setHeader, List.find?]

/-! ### Sample concrete values used by witnesses and counterexamples -/

def sampleUser : UserProfile := { id := "u1", name := "Ada", email := "ada@example.com" }

def sampleAuthData : AuthData :=
  { access_token := "newAccess", refresh_token := "newRefresh", user := sampleUser }

def sampleRetriedRequest : Request :=
  { url := "/api/books", retryFlag := true, skipAuthRefresh := false, headers := [] }

def sampleRetriedError : AxiosError :=
  { config := some sampleRetriedRequest, status := some 401, message := "Unauthorized" }

def sampleLoginRouteRequest : Request :=
  { url := "/api/auth/login", retryFlag := false, skipAuthRefresh := false, headers := [] }

def sampleAuthRouteError : AxiosError :=
  { config := some sampleLoginRouteRequest, status := some 401,
    message := "Invalid credentials" }

/-! ### Claims -/

/-- C2: a request already marked as retried that fails again with a 401 has
its error propagated to the caller as-is: the response interceptor takes the
passthrough branch, so no refresh is invoked and no replay happens,
whatever the (hypothetical) refresh result would have been. -/
theorem retried_request_error_passthrough (error : AxiosError)
    (hretry : (error.config.getD emptyRequest).retryFlag = true)
    (_h401 : error.status = some 401) :
    responseInterceptorOnError error = RefreshDecision.passthrough ∧
    ∀ refreshResult, handleResponseError error refreshResult =
      InterceptResult.rejectedOriginal error := by
  have hdec : responseInterceptorOnError error = RefreshDecision.passthrough := by
    simp [responseInterceptorOnError, hretry]
  exact ⟨hdec, fun refreshResult => by simp [handleResponseError, hdec]⟩

/-- Witness for C2 at a concrete already-retried request. -/
theorem retried_request_error_passthrough_witness :
    responseInterceptorOnError sampleRetriedError = RefreshDecision.passthrough ∧
    ∀ refreshResult, handleResponseError sampleRetriedError refreshResult =
      InterceptResult.rejectedOriginal sampleRetriedError :=
  retried_request_error_passthrough sampleRetriedError (by rfl) (by rfl)

/-- C3: a 401 on a request to one of the three auth routes is propagated
unchanged: the interceptor takes the passthrough branch, so the request is
never retried and no refresh is ever triggered. -/
theorem auth_route_401_passthrough (error : AxiosError)
    (hauth : isAuthRoute (error.config.getD emptyRequest).url = true)
    (_h401 : error.status = some 401) :
    responseInterceptorOnError error = RefreshDecision.passthrough ∧
    ∀ refreshResult, handleResponseError error refreshResult =
      InterceptResult.rejectedOriginal error := by
  have hdec : responseInterceptorOnError error = RefreshDecision.passthrough := by
    simp [responseInterceptorOnError, hauth]
  exact ⟨hdec, fun refreshResult => by simp [handleResponseError, hdec]⟩

/-- Witness for C3 at a concrete 401 on the login route. -/
theorem auth_route_401_passthrough_witness :
    responseInterceptorOnError sampleAuthRouteError = RefreshDecision.passthrough ∧
    ∀ refreshResult, handleResponseError sampleAuthRouteError refreshResult =
      InterceptResult.rejectedOriginal sampleAuthRouteError :=
  auth_route_401_passthrough sampleAuthRouteError (by rfl) (by rfl)

/-- A burst of the refresh flow within one in-flight window: one caller
triggers the refresh, `joiners` further callers pile on before the backend
answers, then the shared promise settles with `result`. Returns the final
state, the single settled outcome delivered to every waiter, and the list
of per-caller return values. -/
def refreshScenario (e : Option String) (joiners : List (Option String))
    (result : Except AxiosError AuthData) (s : CoordState) :
    CoordState × RefreshOutcome × List RefreshCall :=
  let start := refreshTokens e s
  let joined := refreshCalls joiners start.1
  let settled := settleRefresh result joined.1
  (settled.1, settled.2, start.2 :: joined.2)

theorem jsTruthy_jsOr_left (a b : Option String) (h : jsTruthy a = true) :
    jsTruthy (jsOr a b) = true := by
  unfold jsOr
  simp [h]

theorem jsTruthy_jsOr_right (a b : Option String) (h : jsTruthy b = true) :
    jsTruthy (jsOr a b) = true := by
  unfold jsOr
  split
  · assumption
  · exact h

/-- First caller with no refresh in flight: the backend call is issued, the
promise slot is filled with a fresh id, and the caller awaits it. -/
theorem refreshTokens_start (e : Option String) (s : CoordState)
    (hpend : s.refreshPromise = none)
    (htok : jsTruthy (jsOr e (jsOr s.auth.refreshTokenSt s.auth.lsRefresh)) = true) :
    refreshTokens e s =
      ({ s with
          refreshPromise := some s.nextPromiseId
          backendRefreshCalls := s.backendRefreshCalls + 1
          nextPromiseId := s.nextPromiseId + 1 },
        RefreshCall.awaiting s.nextPromiseId) := by
  unfold refreshTokens
  simp [htok, hpend]

/-- Caller arriving while a refresh is in flight: no state change, no
backend call; the caller awaits the existing promise. -/
theorem refreshTokens_join (e : Option String) (s : CoordState) (pid : Nat)
    (hpend : s.refreshPromise = some pid)
    (htok : jsTruthy (jsOr e (jsOr s.auth.refreshTokenSt s.auth.lsRefresh)) = true) :
    refreshTokens e s = (s, RefreshCall.awaiting pid) := by
  unfold refreshTokens
  simp [htok, hpend]

/-- Any burst of callers arriving while a refresh is in flight leaves the
state untouched and hands every caller the same pending promise. -/
theorem refreshCalls_joinAll (args : List (Option String)) (s : CoordState)
    (pid : Nat) (hpend : s.refreshPromise = some pid)
    (htok : jsTruthy s.auth.refreshTokenSt = true) :
    refreshCalls args s = (s, args.map fun _ => RefreshCall.awaiting pid) := by
  induction args with
  | nil => rfl
  | cons e rest ih =>
    have hj := refreshTokens_join e s pid hpend
      (jsTruthy_jsOr_right _ _ (jsTruthy_jsOr_left _ _ htok))
    simp [refreshCalls, hj, ih]

def sampleLiveAuth : AuthState :=
  { lsAccess := some "access0"
    lsRefresh := some "refresh0"
    defaultAuthHeader := some "Bearer access0"
    token := some "access0"
    refreshTokenSt := some "refresh0"
    user := some sampleUser }

def sampleLiveCoord : CoordState :=
  { auth := sampleLiveAuth
    refreshPromise := none
    backendRefreshCalls := 0
    nextPromiseId := 0 }

def sampleRefreshRejection : AxiosError :=
  { config := some (refreshRequestConfig "/api"), status := some 401,
    message := "Refresh token expired" }

/-- C1: for any nonempty burst of concurrent callers of the refresh
coordinator within one in-flight window, exactly one backend refresh call
is issued, a single pending promise exists afterwards, and every caller is
handed that same promise — so all of them await the one shared operation
and observe the single outcome it settles with. -/
theorem concurrent_refresh_single_backend_call (args : List (Option String))
    (s : CoordState)
    (hpend : s.refreshPromise = none)
    (htok : jsTruthy s.auth.refreshTokenSt = true)
    (hne : args ≠ []) :
    (refreshCalls args s).1.backendRefreshCalls = s.backendRefreshCalls + 1 ∧
    (refreshCalls args s).1.refreshPromise = some s.nextPromiseId ∧
    ∀ c ∈ (refreshCalls args s).2, c = RefreshCall.awaiting s.nextPromiseId := by
  cases args with
  | nil => exact absurd rfl hne
  | cons e rest =>
    have hstart := refreshTokens_start e s hpend
      (jsTruthy_jsOr_right _ _ (jsTruthy_jsOr_left _ _ htok))
    have hrest := refreshCalls_joinAll rest
      ({ s with
          refreshPromise := some s.nextPromiseId
          backendRefreshCalls := s.backendRefreshCalls + 1
          nextPromiseId := s.nextPromiseId + 1 })
      s.nextPromiseId rfl htok
    refine ⟨?_, ?_, ?_⟩
    · simp [refreshCalls, hstart, hrest]
    · simp [refreshCalls, hstart, hrest]
    · intro c hc
      simp [refreshCalls, hstart, hrest] at hc
      rcases hc with h | h
      · exact h
      · exact h.2

/-- Witness for C1: three concurrent callers, one backend call, all awaiting
promise 0. -/
theorem concurrent_refresh_single_backend_call_witness :
    (refreshCalls [none, some "refresh0", none] sampleLiveCoord).1.backendRefreshCalls
        = sampleLiveCoord.backendRefreshCalls + 1 ∧
    (refreshCalls [none, some "refresh0", none] sampleLiveCoord).1.refreshPromise
        = some sampleLiveCoord.nextPromiseId ∧
    ∀ c ∈ (refreshCalls [none, some "refresh0", none] sampleLiveCoord).2,
      c = RefreshCall.awaiting sampleLiveCoord.nextPromiseId :=
  concurrent_refresh_single_backend_call [none, some "refresh0", none]
    sampleLiveCoord rfl (by rfl) (by simp)

/-- C4: when the backend rejects an in-flight refresh, the session is fully
cleared (both durable tokens removed, auth header deleted, user null), the
single failure outcome is what every waiter of the shared promise observes
(all callers, the initiator and every joiner, hold the same promise id),
the in-flight slot is reset, and no further backend refresh call is made:
the whole window issues exactly one. -/
theorem refresh_failure_clears_session_and_rejects_all (e : Option String)
    (joiners : List (Option String)) (s : CoordState) (err : AxiosError)
    (hpend : s.refreshPromise = none)
    (htok : jsTruthy s.auth.refreshTokenSt = true) :
    (refreshScenario e joiners (Except.error err) s).1.auth.lsAccess = none ∧
    (refreshScenario e joiners (Except.error err) s).1.auth.lsRefresh = none ∧
    (refreshScenario e joiners (Except.error err) s).1.auth.defaultAuthHeader = none ∧
    (refreshScenario e joiners (Except.error err) s).1.auth.token = none ∧
    (refreshScenario e joiners (Except.error err) s).1.auth.refreshTokenSt = none ∧
    (refreshScenario e joiners (Except.error err) s).1.auth.user = none ∧
    (refreshScenario e joiners (Except.error err) s).2.1 = RefreshOutcome.failure err ∧
    (refreshScenario e joiners (Except.error err) s).1.refreshPromise = none ∧
    (refreshScenario e joiners (Except.error err) s).1.backendRefreshCalls
        = s.backendRefreshCalls + 1 ∧
    ∀ c ∈ (refreshScenario e joiners (Except.error err) s).2.2,
      c = RefreshCall.awaiting s.nextPromiseId := by
  have hstart := refreshTokens_start e s hpend
    (jsTruthy_jsOr_right _ _ (jsTruthy_jsOr_left _ _ htok))
  have hrest := refreshCalls_joinAll joiners
    ({ s with
        refreshPromise := some s.nextPromiseId
        backendRefreshCalls := s.backendRefreshCalls + 1
        nextPromiseId := s.nextPromiseId + 1 })
    s.nextPromiseId rfl htok
  refine ⟨?_, ?_, ?_, ?_, ?_, ?_, ?_, ?_, ?_, ?_⟩ <;>
    simp [refreshScenario, hstart, hrest, settleRefresh, logout]

/-- Witness for C4: initiator plus two joiners, backend rejects; session
cleared, failure delivered, one backend call. -/
theorem refresh_failure_clears_session_and_rejects_all_witness :
    (refreshScenario none [none, none] (Except.error sampleRefreshRejection)
        sampleLiveCoord).1.auth.lsAccess = none ∧
    (refreshScenario none [none, none] (Except.error sampleRefreshRejection)
        sampleLiveCoord).1.auth.lsRefresh = none ∧
    (refreshScenario none [none, none] (Except.error sampleRefreshRejection)
        sampleLiveCoord).1.auth.defaultAuthHeader = none ∧
    (refreshScenario none [none, none] (Except.error sampleRefreshRejection)
        sampleLiveCoord).1.auth.token = none ∧
    (refreshScenario none [none, none] (Except.error sampleRefreshRejection)
        sampleLiveCoord).1.auth.refreshTokenSt = none ∧
    (refreshScenario none [none, none] (Except.error sampleRefreshRejection)
        sampleLiveCoord).1.auth.user = none ∧
    (refreshScenario none [none, none] (Except.error sampleRefreshRejection)
        sampleLiveCoord).2.1 = RefreshOutcome.failure sampleRefreshRejection ∧
    (refreshScenario none [none, none] (Except.error sampleRefreshRejection)
        sampleLiveCoord).1.refreshPromise = none ∧
    (refreshScenario none [none, none] (Except.error sampleRefreshRejection)
        sampleLiveCoord).1.backendRefreshCalls
        = sampleLiveCoord.backendRefreshCalls + 1 ∧
    ∀ c ∈ (refreshScenario none [none, none] (Except.error sampleRefreshRejection)
        sampleLiveCoord).2.2,
      c = RefreshCall.awaiting sampleLiveCoord.nextPromiseId :=
  refresh_failure_clears_session_and_rejects_all none [none, none]
    sampleLiveCoord sampleRefreshRejection rfl (by rfl)

def sampleNoRefreshAuth : AuthState :=
  { lsAccess := some "staleAccess"
    lsRefresh := none
    defaultAuthHeader := some "Bearer staleAccess"
    token := some "staleAccess"
    refreshTokenSt := none
    user := some sampleUser }

def sampleNoRefreshCoord : CoordState :=
  { auth := sampleNoRefreshAuth
    refreshPromise := none
    backendRefreshCalls := 0
    nextPromiseId := 0 }

/-- Counterexample to C5: with no refresh token available anywhere the call
throws immediately, but the session is NOT cleared — the state comes back
bitwise unchanged, still holding a user, an access token and the auth
header, whereas invoking clear()/logout() would have nulled them. -/
theorem no_refresh_token_leaves_session_intact :
    refreshTokens none sampleNoRefreshCoord =
      (sampleNoRefreshCoord, RefreshCall.noRefreshToken) ∧
    sampleNoRefreshCoord.auth.user = some sampleUser ∧
    sampleNoRefreshCoord.auth.defaultAuthHeader = some "Bearer staleAccess" ∧
    sampleNoRefreshCoord.auth.lsAccess = some "staleAccess" ∧
    logout sampleNoRefreshCoord.auth ≠ sampleNoRefreshCoord.auth :=
  ⟨rfl, rfl, rfl, rfl,
    fun h => Option.noConfusion (congrArg AuthState.user h)⟩

/-- C5 as amended: a refresh call that finds neither an explicit nor a
stored refresh token fails immediately with the NoRefreshToken error and
makes no backend call, but it does not invoke clear(): the entire state —
session included — is returned unchanged. -/
theorem no_refresh_token_fails_immediately (explicitRefreshToken : Option String)
    (s : CoordState)
    (h : jsTruthy (jsOr explicitRefreshToken
      (jsOr s.auth.refreshTokenSt s.auth.lsRefresh)) = false) :
    refreshTokens explicitRefreshToken s = (s, RefreshCall.noRefreshToken) := by
  unfold refreshTokens
  simp [h]

/-- Witness for the amended C5 at the concrete tokenless state. -/
theorem no_refresh_token_fails_immediately_witness :
    refreshTokens none sampleNoRefreshCoord =
      (sampleNoRefreshCoord, RefreshCall.noRefreshToken) :=
  no_refresh_token_fails_immediately none sampleNoRefreshCoord (by rfl)

def sampleBooksRequest : Request :=
  { url := "/api/books", retryFlag := false, skipAuthRefresh := false,
    headers := [("Accept", "application/json")] }

def sampleBooks401 : AxiosError :=
  { config := some sampleBooksRequest, status := some 401,
    message := "Unauthorized" }

/-- C6: a 401 on a non-auth-route request not yet retried (and not flagged
skipAuthRefresh — in this code base only the refresh POST itself carries
that flag, and its URL is an auth route anyway) is marked as retried and a
refresh is invoked; a successful refresh replays the original request
exactly once with the fresh bearer token attached, and a failed refresh
rejects with the refresh error, not with the original 401. -/
theorem non_auth_401_marks_retry_refreshes_and_replays (error : AxiosError)
    (r : Request)
    (hconf : error.config = some r)
    (hauth : isAuthRoute r.url = false)
    (hretry : r.retryFlag = false)
    (hskip : r.skipAuthRefresh = false)
    (h401 : error.status = some 401) :
    responseInterceptorOnError error =
      RefreshDecision.attemptRefresh { r with retryFlag := true } ∧
    (∀ d, handleResponseError error (Except.ok d) =
      InterceptResult.replayed
        { r with
            retryFlag := true
            headers := setHeader r.headers "Authorization"
              ("Bearer " ++ d.access_token) }) ∧
    (∀ refreshErr, handleResponseError error (Except.error refreshErr) =
      InterceptResult.rejectedRefreshError refreshErr) := by
  have hdec : responseInterceptorOnError error =
      RefreshDecision.attemptRefresh { r with retryFlag := true } := by
    simp [responseInterceptorOnError, hconf, hauth, hretry, hskip, h401]
  exact ⟨hdec,
    fun d => by simp [handleResponseError, hdec],
    fun refreshErr => by simp [handleResponseError, hdec]⟩

/-- Witness for C6 at a concrete 401 on the books route. -/
theorem non_auth_401_marks_retry_refreshes_and_replays_witness :
    responseInterceptorOnError sampleBooks401 =
      RefreshDecision.attemptRefresh { sampleBooksRequest with retryFlag := true } ∧
    (∀ d, handleResponseError sampleBooks401 (Except.ok d) =
      InterceptResult.replayed
        { sampleBooksRequest with
            retryFlag := true
            headers := setHeader sampleBooksRequest.headers "Authorization"
              ("Bearer " ++ d.access_token) }) ∧
    (∀ refreshErr, handleResponseError sampleBooks401 (Except.error refreshErr) =
      InterceptResult.rejectedRefreshError refreshErr) :=
  non_auth_401_marks_retry_refreshes_and_replays sampleBooks401
    sampleBooksRequest rfl (by rfl) rfl rfl rfl

/-- Counterexample to C7: the refresh POST itself — an auth-route request
issued during the refresh flow, flagged skipAuthRefresh — still receives
the stored (stale) bearer token from the request interceptor, which
attaches the Authorization header unconditionally whenever an access token
is in localStorage; the claimed auth-route exemption does not exist. -/
theorem refresh_request_carries_stale_bearer :
    isAuthRoute (refreshRequestConfig "/api").url = true ∧
    (refreshRequestConfig "/api").skipAuthRefresh = true ∧
    getHeader
      ((requestInterceptor (some "staleAccess") (refreshRequestConfig "/api")).headers)
      "Authorization" = some "Bearer staleAccess" :=
  ⟨rfl, rfl, rfl⟩

/-- C7 as amended: while a nonempty access token is stored, EVERY outgoing
request — auth routes included — carries Authorization: Bearer token,
because the request interceptor attaches it without any route exemption. -/
theorem stored_token_attached_to_every_request (accessToken : String)
    (config : Request) (h : accessToken ≠ "") :
    getHeader ((requestInterceptor (some accessToken) config).headers)
      "Authorization" = some ("Bearer " ++ accessToken) := by
  have ht : jsTruthy (some accessToken) = true := by
    simp [jsTruthy, h]
  simp [requestInterceptor, ht, getHeader_setHeader]

/-- Witness for the amended C7 on the login-route request. -/
theorem stored_token_attached_to_every_request_witness :
    getHeader
      ((requestInterceptor (some "access0") sampleLoginRouteRequest).headers)
      "Authorization" = some ("Bearer " ++ "access0") :=
  stored_token_attached_to_every_request "access0" sampleLoginRouteRequest
    (by simp)

/-- C8: logout is a total function (it cannot throw); afterwards both
durable tokens are gone, the default auth header is deleted, the user is
null, the request interceptor leaves subsequent requests untouched, and a
second logout from the logged-out state is a no-op. -/
theorem logout_clears_everything_and_is_idempotent (s : AuthState)
    (config : Request) :
    (logout s).lsAccess = none ∧
    (logout s).lsRefresh = none ∧
    (logout s).defaultAuthHeader = none ∧
    (logout s).token = none ∧
    (logout s).refreshTokenSt = none ∧
    (logout s).user = none ∧
    logout (logout s) = logout s ∧
    requestInterceptor (logout s).lsAccess config = config :=
  ⟨rfl, rfl, rfl, rfl, rfl, rfl, rfl, rfl⟩

def sampleAnonymousAuth : AuthState :=
  { lsAccess := none
    lsRefresh := none
    defaultAuthHeader := none
    token := none
    refreshTokenSt := none
    user := none }

def sampleLoginFailure : AxiosError :=
  { config := some (loginRequestConfig "/api"), status := some 401,
    message := "Incorrect email or password" }

/-- C9: a login the backend rejects propagates the very error the backend
produced (message included) and changes nothing: the session state is
returned untouched, and because the login URL is an auth route the
response interceptor passes the error through without any retry or
refresh. -/
theorem login_failure_propagates_and_preserves_session (api : String)
    (e : AxiosError) (s : AuthState)
    (hconf : e.config = some (loginRequestConfig api)) :
    login (Except.error e) s = (Except.error e, s) ∧
    responseInterceptorOnError e = RefreshDecision.passthrough ∧
    ∀ refreshResult, handleResponseError e refreshResult =
      InterceptResult.rejectedOriginal e := by
  have hdec : responseInterceptorOnError e = RefreshDecision.passthrough := by
    simp [responseInterceptorOnError, hconf, loginRequestConfig, isAuthRoute_login]
  exact ⟨rfl, hdec, fun refreshResult => by simp [handleResponseError, hdec]⟩

/-- Witness for C9 at a concrete rejected login against an anonymous
session. -/
theorem login_failure_propagates_and_preserves_session_witness :
    login (Except.error sampleLoginFailure) sampleAnonymousAuth =
      (Except.error sampleLoginFailure, sampleAnonymousAuth) ∧
    responseInterceptorOnError sampleLoginFailure = RefreshDecision.passthrough ∧
    ∀ refreshResult, handleResponseError sampleLoginFailure refreshResult =
      InterceptResult.rejectedOriginal sampleLoginFailure :=
  login_failure_propagates_and_preserves_session "/api" sampleLoginFailure
    sampleAnonymousAuth rfl

/-- C10: fetchUser's catch branch refreshes exactly when the error is a 401
and the refreshToken state variable is truthy; every other failure — a
transport error with no HTTP status, any non-401 status, or a 401 with no
refresh token — calls logout(), which removes both persisted tokens and
the in-memory session rather than preserving them. -/
theorem fetchUser_error_fallback_characterisation (errStatus : Option Nat)
    (rt : Option String) (s : AuthState) :
    (fetchUserOnError errStatus rt = FetchUserFallback.refresh ↔
      (errStatus = some 401 ∧ jsTruthy rt = true)) ∧
    (fetchUserOnError errStatus rt = FetchUserFallback.doLogout ↔
      ¬(errStatus = some 401 ∧ jsTruthy rt = true)) ∧
    (logout s).lsAccess = none ∧
    (logout s).lsRefresh = none ∧
    (logout s).token = none ∧
    (logout s).refreshTokenSt = none ∧
    (logout s).user = none := by
  refine ⟨?_, ?_, rfl, rfl, rfl, rfl, rfl⟩ <;>
    simp [fetchUserOnError, ite_eq_iff, Bool.and_eq_true]

/-- Witness for C10 at a concrete transport error (no HTTP status) with a
refresh token present: the fallback is logout, not refresh. -/
theorem fetchUser_error_fallback_characterisation_witness :
    (fetchUserOnError none (some "refresh0") = FetchUserFallback.refresh ↔
      ((none : Option Nat) = some 401 ∧ jsTruthy (some "refresh0") = true)) ∧
    (fetchUserOnError none (some "refresh0") = FetchUserFallback.doLogout ↔
      ¬((none : Option Nat) = some 401 ∧ jsTruthy (some "refresh0") = true)) ∧
    (logout sampleLiveAuth).lsAccess = none ∧
    (logout sampleLiveAuth).lsRefresh = none ∧
    (logout sampleLiveAuth).token = none ∧
    (logout sampleLiveAuth).refreshTokenSt = none ∧
    (logout sampleLiveAuth).user = none :=
  fetchUser_error_fallback_characterisation none (some "refresh0") sampleLiveAuth
